import Mathlib

/-!
Verification development for the Microsoft Foundry streaming-adapter of this
repository.  The definitions below are a shallow embedding of the TypeScript
source (`src/src/__tests__/microsoft-foundry.test.ts`, which carries the
`MicrosoftFoundryHandler` implementation, `FOUNDRY_MODEL_CAPABILITIES` and
`getModelCapabilities`).  A few collaborators of the handler
(`ToolCallProcessor`, `convertToOpenAiMessages`, `getOpenAIToolParams`,
`azureOpenAiDefaultApiVersion`) are referenced by the source but their own
code is not in the repository snapshot; each such definition is marked
`Modelled from the spec:` and follows the specification's wording.
-/

namespace Foundry

/-! ### Character-list string primitives

JavaScript's `String.prototype.startsWith` / `.includes` / `.toLowerCase`
are embedded as structurally recursive functions over `List Char` so that
every claim can be settled by kernel evaluation. -/

/-- `charsStarts p h` is true when `p` is an initial segment of `h`
(JS `h.startsWith(p)` on the character lists). -/
def charsStarts : List Char → List Char → Bool
  | [], _ => true
  | _ :: _, [] => false
  | p :: ps, h :: hs => p == h && charsStarts ps hs

/-- `charsContains p h` is true when `p` occurs contiguously inside `h`
(JS `h.includes(p)` on the character lists). -/
def charsContains (p : List Char) : List Char → Bool
  | [] => p.isEmpty
  | h :: hs => charsStarts p (h :: hs) || charsContains p hs

/-- JS `s.startsWith(p)`. -/
def strStarts (s p : String) : Bool := charsStarts p.data s.data

/-- JS `s.includes(p)`. -/
def strContains (s p : String) : Bool := charsContains p.data s.data

/-- JS `s.endsWith(p)` (used only by the spec-side classifier of C4). -/
def strEnds (s p : String) : Bool := charsStarts p.data.reverse s.data.reverse

/-- JS `s.toLowerCase()` (the identifiers involved are ASCII). -/
def lowerStr (s : String) : String := ⟨s.data.map Char.toLower⟩

/-- JS truthiness of an optional string: `undefined` and `""` are falsy. -/
def optTruthy : Option String → Bool
  | none => false
  | some s => !s.data.isEmpty

/-- JS template interpolation of a possibly-undefined string
(`undefined` prints as "undefined"). -/
def optInterp : Option String → String
  | none => "undefined"
  | some s => s

/-! ### Capability records (`ModelInfo` of `@shared/api`)

Prices are dollars per MTok in the source; they are embedded scaled by 100
(hundredths) so that every table constant is a natural number. -/

/-- A full capability record.  `supportsReasoning` is an optional field in
the TypeScript type; since every read of it is a JS truthiness test,
`undefined` is collapsed to `false`. -/
structure ModelInfo where
  maxTokens : Nat
  contextWindow : Nat
  supportsImages : Bool
  supportsPromptCache : Bool
  supportsReasoning : Bool
  inputPrice : Nat
  outputPrice : Nat
deriving DecidableEq, Repr

/-- A `Partial<ModelInfo>` table entry: fields absent from the object
literal are `none`. -/
structure ModelInfoPatch where
  maxTokens : Option Nat := none
  contextWindow : Option Nat := none
  supportsImages : Option Bool := none
  supportsPromptCache : Option Bool := none
  supportsReasoning : Option Bool := none
  inputPrice : Option Nat := none
  outputPrice : Option Nat := none
deriving DecidableEq, Repr

/-- The JS spread `{...d, ...p}`: fields present in `p` override `d`. -/
def mergeOver (d : ModelInfo) (p : ModelInfoPatch) : ModelInfo :=
  { maxTokens := p.maxTokens.getD d.maxTokens
    contextWindow := p.contextWindow.getD d.contextWindow
    supportsImages := p.supportsImages.getD d.supportsImages
    supportsPromptCache := p.supportsPromptCache.getD d.supportsPromptCache
    supportsReasoning := p.supportsReasoning.getD d.supportsReasoning
    inputPrice := p.inputPrice.getD d.inputPrice
    outputPrice := p.outputPrice.getD d.outputPrice }

/-- `DEFAULT_MODEL_INFO` of the source (no `supportsReasoning` field, hence
`false`). -/
def DEFAULT_MODEL_INFO : ModelInfo :=
  { maxTokens := 4096
    contextWindow := 128000
    supportsImages := false
    supportsPromptCache := false
    supportsReasoning := false
    inputPrice := 0
    outputPrice := 0 }

/-- The `o1` entry of `FOUNDRY_MODEL_CAPABILITIES` (named for the C7
theorems). -/
def o1Caps : ModelInfoPatch :=
  { maxTokens := some 100000, contextWindow := some 200000
    supportsImages := some true, supportsPromptCache := some false
    supportsReasoning := some true
    inputPrice := some 1500, outputPrice := some 6000 }

/-- The `o1-mini` entry of `FOUNDRY_MODEL_CAPABILITIES` (named for the C7
theorems). -/
def o1MiniCaps : ModelInfoPatch :=
  { maxTokens := some 65536, contextWindow := some 128000
    supportsImages := some false, supportsPromptCache := some false
    supportsReasoning := some true
    inputPrice := some 300, outputPrice := some 1200 }

/-- `FOUNDRY_MODEL_CAPABILITIES`, in the object-literal insertion order
(`Object.entries` iterates string keys in insertion order; no key is
integer-like). -/
def FOUNDRY_MODEL_CAPABILITIES : List (String × ModelInfoPatch) :=
  [ ("gpt-5",
     { maxTokens := some 32768, contextWindow := some 256000
       supportsImages := some true, supportsPromptCache := some true
       inputPrice := some 500, outputPrice := some 2000 })
  , ("gpt-5-mini",
     { maxTokens := some 32768, contextWindow := some 256000
       supportsImages := some true, supportsPromptCache := some true
       inputPrice := some 100, outputPrice := some 400 })
  , ("gpt-5.2",
     { maxTokens := some 32768, contextWindow := some 256000
       supportsImages := some true, supportsPromptCache := some true
       inputPrice := some 500, outputPrice := some 2000 })
  , ("gpt-5.2-chat",
     { maxTokens := some 32768, contextWindow := some 256000
       supportsImages := some true, supportsPromptCache := some true
       inputPrice := some 500, outputPrice := some 2000 })
  , ("gpt-4o",
     { maxTokens := some 16384, contextWindow := some 128000
       supportsImages := some true, supportsPromptCache := some false
       inputPrice := some 250, outputPrice := some 1000 })
  , ("gpt-4o-mini",
     { maxTokens := some 16384, contextWindow := some 128000
       supportsImages := some true, supportsPromptCache := some false
       inputPrice := some 15, outputPrice := some 60 })
  , ("gpt-4",
     { maxTokens := some 8192, contextWindow := some 128000
       supportsImages := some false, supportsPromptCache := some false
       inputPrice := some 3000, outputPrice := some 6000 })
  , ("gpt-4-turbo",
     { maxTokens := some 4096, contextWindow := some 128000
       supportsImages := some true, supportsPromptCache := some false
       inputPrice := some 1000, outputPrice := some 3000 })
  , ("o1", o1Caps)
  , ("o1-mini", o1MiniCaps)
  , ("o1-preview",
     { maxTokens := some 32768, contextWindow := some 128000
       supportsImages := some false, supportsPromptCache := some false
       supportsReasoning := some true
       inputPrice := some 1500, outputPrice := some 6000 })
  , ("o3",
     { maxTokens := some 100000, contextWindow := some 200000
       supportsImages := some true, supportsPromptCache := some false
       supportsReasoning := some true
       inputPrice := some 1000, outputPrice := some 4000 })
  , ("o3-mini",
     { maxTokens := some 65536, contextWindow := some 200000
       supportsImages := some false, supportsPromptCache := some false
       supportsReasoning := some true
       inputPrice := some 110, outputPrice := some 440 })
  , ("gpt-4.1",
     { maxTokens := some 32768, contextWindow := some 1047576
       supportsImages := some true, supportsPromptCache := some false
       inputPrice := some 200, outputPrice := some 800 })
  , ("gpt-4.1-mini",
     { maxTokens := some 32768, contextWindow := some 1047576
       supportsImages := some true, supportsPromptCache := some false
       inputPrice := some 40, outputPrice := some 160 })
  , ("gpt-4.1-nano",
     { maxTokens := some 32768, contextWindow := some 1047576
       supportsImages := some true, supportsPromptCache := some false
       inputPrice := some 10, outputPrice := some 40 })
  , ("o1-pro",
     { maxTokens := some 100000, contextWindow := some 200000
       supportsImages := some true, supportsPromptCache := some false
       supportsReasoning := some true
       inputPrice := some 15000, outputPrice := some 60000 })
  , ("o4-mini",
     { maxTokens := some 65536, contextWindow := some 200000
       supportsImages := some true, supportsPromptCache := some false
       supportsReasoning := some true
       inputPrice := some 110, outputPrice := some 440 })
  , ("gpt-35-turbo",
     { maxTokens := some 4096, contextWindow := some 16385
       supportsImages := some false, supportsPromptCache := some false
       inputPrice := some 50, outputPrice := some 150 })
  , ("claude-sonnet-4-5",
     { maxTokens := some 8192, contextWindow := some 200000
       supportsImages := some true, supportsPromptCache := some true
       supportsReasoning := some true
       inputPrice := some 300, outputPrice := some 1500 })
  , ("claude-opus-4",
     { maxTokens := some 8192, contextWindow := some 200000
       supportsImages := some true, supportsPromptCache := some true
       supportsReasoning := some true
       inputPrice := some 1500, outputPrice := some 7500 })
  , ("claude-haiku-4",
     { maxTokens := some 8192, contextWindow := some 200000
       supportsImages := some true, supportsPromptCache := some true
       inputPrice := some 80, outputPrice := some 400 })
  , ("Phi-4",
     { maxTokens := some 16384, contextWindow := some 128000
       supportsImages := some false, supportsPromptCache := some false
       inputPrice := some 0, outputPrice := some 0 })
  , ("Phi-4-mini",
     { maxTokens := some 16384, contextWindow := some 128000
       supportsImages := some false, supportsPromptCache := some false
       inputPrice := some 0, outputPrice := some 0 })
  , ("Phi-4-multimodal",
     { maxTokens := some 16384, contextWindow := some 128000
       supportsImages := some true, supportsPromptCache := some false
       inputPrice := some 0, outputPrice := some 0 })
  , ("Llama-3.3-70B",
     { maxTokens := some 8192, contextWindow := some 128000
       supportsImages := some false, supportsPromptCache := some false
       inputPrice := some 0, outputPrice := some 0 })
  , ("Llama-4",
     { maxTokens := some 8192, contextWindow := some 128000
       supportsImages := some false, supportsPromptCache := some false
       inputPrice := some 0, outputPrice := some 0 })
  , ("DeepSeek-V3",
     { maxTokens := some 8192, contextWindow := some 128000
       supportsImages := some false, supportsPromptCache := some false
       inputPrice := some 0, outputPrice := some 0 })
  , ("mistral-medium",
     { maxTokens := some 8192, contextWindow := some 128000
       supportsImages := some false, supportsPromptCache := some false
       inputPrice := some 0, outputPrice := some 0 })
  , ("grok",
     { maxTokens := some 8192, contextWindow := some 128000
       supportsImages := some false, supportsPromptCache := some false
       inputPrice := some 0, outputPrice := some 0 })
  , ("grok-3",
     { maxTokens := some 8192, contextWindow := some 128000
       supportsImages := some false, supportsPromptCache := some false
       inputPrice := some 0, outputPrice := some 0 })
  , ("grok-4",
     { maxTokens := some 8192, contextWindow := some 128000
       supportsImages := some false, supportsPromptCache := some false
       inputPrice := some 0, outputPrice := some 0 }) ]

/-- `getModelCapabilities`: exact key lookup first, then the first
entry (in insertion order) whose key is a string-prefix of the name,
else the default record. -/
def getModelCapabilities (modelName : String) : ModelInfo :=
  match FOUNDRY_MODEL_CAPABILITIES.find? (fun e => e.1 == modelName) with
  | some e => mergeOver DEFAULT_MODEL_INFO e.2
  | none =>
    match FOUNDRY_MODEL_CAPABILITIES.find? (fun e => strStarts modelName e.1) with
    | some e => mergeOver DEFAULT_MODEL_INFO e.2
    | none => DEFAULT_MODEL_INFO

/-! ### Handler options (`MicrosoftFoundryHandlerOptions`) -/

/-- Cloud environment selector. -/
inductive CloudEnv where
  | commercial
  | government
  | stack
deriving DecidableEq, Repr

/-- The handler's option object.  Optional TypeScript fields are `Option`s;
`microsoftFoundryUseIdentity` is only ever read through JS truthiness, so
`undefined` is collapsed to `false`. -/
structure FoundryOptions where
  endpoint : Option String := none
  apiKey : Option String := none
  deploymentId : Option String := none
  cloudEnvironment : Option CloudEnv := none
  useIdentity : Bool := false
  customScope : Option String := none
  apiVersion : Option String := none
  modelInfo : Option ModelInfo := none
  reasoningEffort : Option String := none
deriving DecidableEq, Repr

/-! ### Error classifier (`getDetailedErrorMessage`) -/

/-- A raw transport/provider error: the code reads `err?.status`,
`err?.statusCode` and `err.message`. -/
structure RawError where
  status : Option Nat := none
  statusCode : Option Nat := none
  message : String := ""
deriving DecidableEq, Repr

/-- `err?.status || err?.statusCode` (JS `||`: a present but zero `status`
falls through to `statusCode`). -/
def statusOr (e : RawError) : Option Nat :=
  match e.status with
  | some s => if s == 0 then e.statusCode else some s
  | none => e.statusCode

/-- Trigger of the 401 branch. -/
def errTrigger401 (e : RawError) : Bool :=
  statusOr e == some 401 || strContains e.message "401" || strContains e.message "Unauthorized"

/-- Trigger of the 403 branch. -/
def errTrigger403 (e : RawError) : Bool :=
  statusOr e == some 403 || strContains e.message "403" || strContains e.message "Forbidden"

/-- Trigger of the 404 branch. -/
def errTrigger404 (e : RawError) : Bool :=
  statusOr e == some 404 || strContains e.message "404" || strContains e.message "Not Found"

/-- Deployment hint inside the 404 branch. -/
def errTriggerDeployment (e : RawError) : Bool :=
  strContains e.message "deployment" || strContains e.message "Deployment" ||
    strContains e.message "DeploymentNotFound"

/-- Trigger of the 429 branch. -/
def errTrigger429 (e : RawError) : Bool :=
  statusOr e == some 429 || strContains e.message "429" || strContains e.message "Too Many Requests"

/-- Trigger of the network branch. -/
def errTriggerNetwork (e : RawError) : Bool :=
  strContains e.message "ENOTFOUND" || strContains e.message "ECONNREFUSED" ||
    strContains e.message "network"

/-- Auth remediation for identity mode. -/
def authIdentityMsg : String :=
  "Azure CLI session expired or not authenticated. Run `az login` to re-authenticate, then try again."

/-- Auth remediation for API-key mode. -/
def authKeyMsg : String :=
  "Invalid API key. Please verify your Microsoft Foundry API key is correct."

/-- 403 remediation. -/
def forbiddenMsg : String :=
  "Insufficient permissions. Ensure your account has the 'Cognitive Services User' role assigned for this resource."

/-- Deployment-specific 404 remediation (interpolates the configured
deployment identifier). -/
def deploymentNotFoundMsg (opts : FoundryOptions) : String :=
  "Deployment '" ++ optInterp opts.deploymentId ++ "' not found. " ++
    "Verify that:\n" ++
    "1. The deployment exists in your Azure AI Foundry project\n" ++
    "2. The deployment name is spelled correctly\n" ++
    "3. The model has been deployed (not just available in the catalog)"

/-- Generic 404 remediation. -/
def notFoundMsg : String :=
  "Resource not found. Verify the endpoint URL is correct."

/-- 429 remediation. -/
def rateLimitMsg : String :=
  "Rate limit exceeded. Please wait a moment and try again, or request a quota increase for your Azure OpenAI resource."

/-- Network remediation. -/
def networkMsg : String :=
  "Unable to reach Microsoft Foundry endpoint. Check your network connectivity and verify the endpoint URL is correct."

/-- `getDetailedErrorMessage`: the source's sequence of early-return `if`s,
translated as a cascade. -/
def getDetailedErrorMessage (opts : FoundryOptions) (e : RawError) : String :=
  if errTrigger401 e then
    if opts.useIdentity then authIdentityMsg else authKeyMsg
  else if errTrigger403 e then forbiddenMsg
  else if errTrigger404 e then
    if errTriggerDeployment e then deploymentNotFoundMsg opts else notFoundMsg
  else if errTrigger429 e then rateLimitMsg
  else if errTriggerNetwork e then networkMsg
  else "Microsoft Foundry error: " ++ e.message

/-! ### Credential/client provisioning (`getAudienceScope`, `ensureClient`) -/

/-- Configuration-error text for Azure Stack without a custom scope. -/
def stackScopeMsg : String :=
  "Azure Stack environment requires a custom audience scope. Please configure 'Custom Scope' in the provider settings."

/-- Configuration-error text for a missing endpoint. -/
def endpointRequiredMsg : String :=
  "Microsoft Foundry endpoint is required. Please configure the endpoint URL."

/-- Configuration-error text when neither auth mode is selected. -/
def authRequiredMsg : String :=
  "Microsoft Foundry requires either an API key or Azure Identity authentication. Please configure one of these options."

/-- `getAudienceScope`: resolves the Azure AD audience scope; throws (as
`Except.error`) for Stack without a custom scope and no recognizable
endpoint host. -/
def getAudienceScope (opts : FoundryOptions) : Except String String :=
  let endpoint := lowerStr (opts.endpoint.getD "")
  let cloudEnv := opts.cloudEnvironment.getD .commercial
  if cloudEnv == .stack && optTruthy opts.customScope then
    .ok (opts.customScope.getD "")
  else if strContains endpoint "azure.us" then
    .ok "https://cognitiveservices.azure.us/.default"
  else if strContains endpoint "azure.com" then
    .ok "https://cognitiveservices.azure.com/.default"
  else
    match cloudEnv with
    | .government => .ok "https://cognitiveservices.azure.us/.default"
    | .stack =>
      if !optTruthy opts.customScope then .error stackScopeMsg
      else .ok (opts.customScope.getD "")
    | .commercial => .ok "https://cognitiveservices.azure.com/.default"

/-- Modelled from the spec: `azureOpenAiDefaultApiVersion` is a constant of
the shared configuration module (`@shared/api`), whose source is not in the
repository snapshot; no claim depends on its value. -/
def azureOpenAiDefaultApiVersion : String := "shared-default-api-version"

/-- `getApiVersion`: user override (JS `||`, so an empty override also
falls back) or the shared default. -/
def getApiVersion (opts : FoundryOptions) : String :=
  if optTruthy opts.apiVersion then opts.apiVersion.getD "" else azureOpenAiDefaultApiVersion

/-- The authentication mode baked into a constructed client. -/
inductive AuthMode where
  | identity (audienceScope : String)
  | key (apiKey : String)
deriving DecidableEq, Repr

/-- The constructed `AzureOpenAI` client, reduced to the configuration the
constructor receives (the network behaviour behind it is external). -/
structure Client where
  endpoint : String
  auth : AuthMode
  apiVersion : String
deriving DecidableEq, Repr

/-- The mutable fields of a `MicrosoftFoundryHandler` instance. -/
structure HandlerState where
  options : FoundryOptions
  client : Option Client := none
deriving DecidableEq, Repr

/-- The construction branch of `ensureClient` (the body guarded by the
`!this.client` test).  Validation failures are thrown outside the `try`,
so they surface verbatim; a throw from `getAudienceScope` inside the `try`
is routed through `getDetailedErrorMessage`. -/
def buildClient (opts : FoundryOptions) : Except String Client :=
  if !optTruthy opts.endpoint then .error endpointRequiredMsg
  else if !optTruthy opts.apiKey && !opts.useIdentity then .error authRequiredMsg
  else if opts.useIdentity then
    match getAudienceScope opts with
    | .ok scope =>
      .ok { endpoint := opts.endpoint.getD ""
            auth := .identity scope
            apiVersion := getApiVersion opts }
    | .error m =>
      .error (getDetailedErrorMessage opts { status := none, statusCode := none, message := m })
  else
    .ok { endpoint := opts.endpoint.getD ""
          auth := .key (opts.apiKey.getD "")
          apiVersion := getApiVersion opts }

/-- `ensureClient`: returns the cached client when present, otherwise
constructs one and caches it on the instance. -/
def ensureClient (st : HandlerState) : Except String (Client × HandlerState) :=
  match st.client with
  | some c => .ok (c, st)
  | none =>
    match buildClient st.options with
    | .ok c => .ok (c, { st with client := some c })
    | .error m => .error m

/-! ### Request shaping (`createMessage`, up to the provider call) -/

/-- Modelled from the spec: a canonical caller message — role plus text
content (the `ClineStorageMessage` type is not in the repository
snapshot).  No claim inspects the converted history. -/
structure SpecMessage where
  role : String
  content : String
deriving DecidableEq, Repr

/-- A provider-native chat message. -/
structure OpenAiMessage where
  role : String
  content : String
deriving DecidableEq, Repr

/-- Modelled from the spec: `convertToOpenAiMessages` maps the canonical
history verbatim into provider-native messages (the transform module is
not in the repository snapshot).  No claim inspects its output beyond the
prepended system/developer message. -/
def convertToOpenAiMessages (msgs : List SpecMessage) : List OpenAiMessage :=
  msgs.map (fun m => { role := m.role, content := m.content })

/-- Modelled from the spec: a tool schema offered for one request. -/
structure ToolSchema where
  name : String
  description : String
  params : String
deriving DecidableEq, Repr

/-- Modelled from the spec: `getOpenAIToolParams` translates a present tool
schema into the provider's tool parameter shape and omits tool parameters
entirely when the schema is absent (the transform module is not in the
repository snapshot). -/
def getOpenAIToolParams (tools : Option (List ToolSchema)) : Option (List ToolSchema) :=
  tools

/-- The shaped provider request.  A field of `none` means the property is
absent from the serialized request: the source always writes the
`temperature` property but sets it to `undefined`, which JSON
serialization drops, while `reasoning_effort` is omitted by a conditional
spread. -/
structure ProviderRequest where
  model : String
  messages : List OpenAiMessage
  temperature : Option ℚ
  reasoningEffortField : Option String
  stream : Bool
  includeUsage : Bool
  tools : Option (List ToolSchema)
deriving DecidableEq, Repr

/-- JS `options.reasoningEffort || "medium"` (an absent or empty hint
yields the default). -/
def effortVal : Option String → String
  | none => "medium"
  | some e => if e == "" then "medium" else e

/-- The source's reasoning-model detection: capability record truthy, or
the lowercased deployment id contains one of the substrings "o1"/"o3"/"o4"
and does not contain the substring "chat". -/
def isReasoningModel (info : ModelInfo) (deploymentLower : String) : Bool :=
  info.supportsReasoning ||
    ((strContains deploymentLower "o1" || strContains deploymentLower "o3" ||
        strContains deploymentLower "o4") &&
      !strContains deploymentLower "chat")

/-- The source's fixed-temperature detection: the lowercased deployment id
contains "gpt-5" or "gpt5", or the model is a reasoning model. -/
def noTemperatureSupport (info : ModelInfo) (deploymentLower : String) : Bool :=
  strContains deploymentLower "gpt-5" || strContains deploymentLower "gpt5" ||
    isReasoningModel info deploymentLower

/-- The request-shaping section of `createMessage` (everything between the
deployment check and the `client.chat.completions.create` call). -/
def shapeRequest (opts : FoundryOptions) (systemPrompt : String) (messages : List SpecMessage)
    (tools : Option (List ToolSchema)) (deploymentId : String) : ProviderRequest :=
  let deploymentLower := lowerStr deploymentId
  let info := opts.modelInfo.getD (getModelCapabilities deploymentId)
  let reasoning := isReasoningModel info deploymentLower
  { model := deploymentId
    messages :=
      (if reasoning then { role := "developer", content := systemPrompt }
       else { role := "system", content := systemPrompt }) :: convertToOpenAiMessages messages
    temperature :=
      if noTemperatureSupport info deploymentLower then none else some (7 / 10 : ℚ)
    reasoningEffortField :=
      if reasoning then some (effortVal opts.reasoningEffort) else none
    stream := true
    includeUsage := true
    tools := getOpenAIToolParams tools }

/-! ### Tool-call reassembly

Modelled from the spec: the `ToolCallProcessor` of
`transform/tool-call-processor` is not in the repository snapshot.  Per
spec section 4.5 it is a per-request state machine keyed by the provider's
tool-call index: an unseen index opens an accumulator recording id/name
fragments verbatim and concatenating argument fragments; a fragment for a
new distinct index closes the previous accumulator and emits a completed
tool call; fragments for an already-closed index are not applied; the
accumulated argument string is delivered raw on closure. -/

/-- One index-addressed tool-call fragment of a provider chunk. -/
structure ToolCallFragment where
  index : Nat
  id : Option String := none
  name : Option String := none
  args : Option String := none
deriving DecidableEq, Repr

/-- A mutable accumulator for one tool-call index. -/
structure PendingToolCall where
  id : String
  name : String
  argumentBuffer : String
deriving DecidableEq, Repr

/-- The reassembler's per-request state: the open accumulator (with its
index) and the set of closed indices. -/
structure ToolCallProcState where
  current : Option (Nat × PendingToolCall) := none
  closed : List Nat := []
deriving DecidableEq, Repr

/-- The canonical stream events of the adapter. -/
inductive StreamEvent where
  | text (delta : String)
  | reasoning (delta : String)
  | toolCallComplete (id name arguments : String)
  | usage (inputTokens outputTokens cacheReadTokens cacheWriteTokens : Nat)
deriving DecidableEq, Repr

/-- Open a fresh accumulator from a fragment. -/
def openPending (f : ToolCallFragment) : PendingToolCall :=
  { id := f.id.getD "", name := f.name.getD "", argumentBuffer := f.args.getD "" }

/-- Append a fragment's pieces to an open accumulator. -/
def appendPending (p : PendingToolCall) (f : ToolCallFragment) : PendingToolCall :=
  { id := p.id ++ f.id.getD ""
    name := p.name ++ f.name.getD ""
    argumentBuffer := p.argumentBuffer ++ f.args.getD "" }

/-- The completed-tool-call event of an accumulator (arguments delivered as
the raw accumulated string). -/
def completeEvent (p : PendingToolCall) : StreamEvent :=
  .toolCallComplete p.id p.name p.argumentBuffer

/-- Modelled from the spec: one fragment step of the reassembler. -/
def applyFragment (st : ToolCallProcState) (f : ToolCallFragment) :
    List StreamEvent × ToolCallProcState :=
  if st.closed.contains f.index then ([], st)
  else
    match st.current with
    | none => ([], { st with current := some (f.index, openPending f) })
    | some (i, p) =>
      if i == f.index then ([], { st with current := some (i, appendPending p f) })
      else
        ([completeEvent p],
          { current := some (f.index, openPending f), closed := i :: st.closed })

/-- Modelled from the spec: `processToolCallDeltas` folds the fragments of
one chunk through the reassembler, emitting any closures. -/
def processToolCallDeltas (st : ToolCallProcState) (frags : List ToolCallFragment) :
    List StreamEvent × ToolCallProcState :=
  frags.foldl
    (fun acc f =>
      let r := applyFragment acc.2 f
      (acc.1 ++ r.1, r.2))
    ([], st)

/-- Modelled from the spec: the stream-end flush — an accumulator still
open when the overall stream ends is emitted as best-effort complete.
The source's `createMessage` never invokes this operation. -/
def finalizeToolCalls (st : ToolCallProcState) : List StreamEvent :=
  match st.current with
  | some (_, p) => [completeEvent p]
  | none => []

/-! ### Streaming event normalization (`createMessage`'s chunk loop) -/

/-- `prompt_tokens_details` of a usage block. -/
structure PromptTokensDetails where
  cached_tokens : Option Nat := none
deriving DecidableEq, Repr

/-- A provider usage block. -/
structure UsageBlock where
  prompt_tokens : Option Nat := none
  completion_tokens : Option Nat := none
  prompt_tokens_details : Option PromptTokensDetails := none
deriving DecidableEq, Repr

/-- A chunk's `choices[i].delta`. -/
structure ChunkDelta where
  content : Option String := none
  reasoning_content : Option String := none
  tool_calls : Option (List ToolCallFragment) := none
deriving DecidableEq, Repr

/-- One entry of a chunk's `choices` array. -/
structure ChunkChoice where
  delta : Option ChunkDelta := none
deriving DecidableEq, Repr

/-- One unit of the provider's streaming response.  A chunk of unrecognized
shape (no choices / delta / usage) is the record with `choices := []` and
`usage := none`. -/
structure Chunk where
  choices : List ChunkChoice := []
  usage : Option UsageBlock := none
deriving DecidableEq, Repr

/-- The usage event the loop builds from a usage block (each missing field
defaults to zero; cache-write tokens are always zero). -/
def usageEventOf (u : UsageBlock) : StreamEvent :=
  .usage (u.prompt_tokens.getD 0) (u.completion_tokens.getD 0)
    ((u.prompt_tokens_details.bind PromptTokensDetails.cached_tokens).getD 0) 0

/-- `chunk.choices?.[0]?.delta`. -/
def chunkDelta (c : Chunk) : Option ChunkDelta :=
  (c.choices.head?).bind ChunkChoice.delta

/-- The text event of one chunk (`if (delta?.content)`; an empty delta is
falsy and yields nothing). -/
def chunkTextEvents (d : Option ChunkDelta) : List StreamEvent :=
  match d with
  | some dd => if optTruthy dd.content then [.text (dd.content.getD "")] else []
  | none => []

/-- The reasoning event of one chunk (the provider's alternate
`reasoning_content` key; empty is falsy). -/
def chunkReasoningEvents (d : Option ChunkDelta) : List StreamEvent :=
  match d with
  | some dd =>
    if optTruthy dd.reasoning_content then [.reasoning (dd.reasoning_content.getD "")] else []
  | none => []

/-- The usage event of one chunk (`if (chunk.usage)`: one event per chunk
whose usage block is present). -/
def chunkUsageEvents (c : Chunk) : List StreamEvent :=
  match c.usage with
  | some u => [usageEventOf u]
  | none => []

/-- One iteration of `createMessage`'s `for await` loop: text delta,
reasoning delta, tool-call fragments and usage block, emitted in that
order. -/
def processChunk (tp : ToolCallProcState) (c : Chunk) : List StreamEvent × ToolCallProcState :=
  let delta := chunkDelta c
  let toolStep :=
    match delta.bind ChunkDelta.tool_calls with
    | some frags => processToolCallDeltas tp frags
    | none => ([], tp)
  (chunkTextEvents delta ++ chunkReasoningEvents delta ++ toolStep.1 ++ chunkUsageEvents c,
    toolStep.2)

/-- The whole chunk loop, also returning the reassembler's final state.
Faithful to the source, the loop ends without flushing the reassembler. -/
def runStreamAux (tp : ToolCallProcState) : List Chunk → List StreamEvent × ToolCallProcState
  | [] => ([], tp)
  | c :: cs =>
    let p := processChunk tp c
    let r := runStreamAux p.2 cs
    (p.1 ++ r.1, r.2)

/-- The event sequence `createMessage` yields for a given provider chunk
sequence. -/
def runStream (chunks : List Chunk) : List StreamEvent :=
  (runStreamAux {} chunks).1

/-- Error text of the missing-deployment check. -/
def noDeploymentMsg : String :=
  "No deployment selected. Please select a deployment from the Microsoft Foundry provider settings."

/-- `createMessage`, as the exception/event behaviour of one request on a
given provider chunk sequence: `ensureClient` first, then the deployment
check (both before any provider request and before any event), then the
shaped request is issued and the chunk loop yields the event sequence.  An
`Except.error` result models the generator throwing before yielding any
event; the provider request exists only in the `ok` branch, mirroring that
the failing paths never reach `client.chat.completions.create`. -/
def createMessage (st : HandlerState) (systemPrompt : String) (messages : List SpecMessage)
    (tools : Option (List ToolSchema)) (chunks : List Chunk) :
    Except String (ProviderRequest × List StreamEvent) :=
  match ensureClient st with
  | .error m => .error m
  | .ok (_, st') =>
    if !optTruthy st'.options.deploymentId then .error noDeploymentMsg
    else
      let d := st'.options.deploymentId.getD ""
      .ok (shapeRequest st'.options systemPrompt messages tools d, runStream chunks)

/-! ### Spec-side predicates

These definitions follow the specification's wording (not the source) and
exist only to be compared against the source-derived behaviour. -/

/-- Spec wording of "reasoning-class" (spec 4.3 / claim C4): the capability
record declares reasoning support, or the identifier matches a known
reasoning-family prefix (o1/o3/o4) and does not match the known "chat"
exception suffix. -/
def reasoningClassClaimed (info : ModelInfo) (deploymentLower : String) : Bool :=
  info.supportsReasoning ||
    ((strStarts deploymentLower "o1" || strStarts deploymentLower "o3" ||
        strStarts deploymentLower "o4") &&
      !strEnds deploymentLower "chat")

/-- Spec wording of the fixed-temperature family (claim C5): the identifier
contains "gpt-5" or "gpt5". -/
def fixedTempFamilyClaimed (deploymentLower : String) : Bool :=
  strContains deploymentLower "gpt-5" || strContains deploymentLower "gpt5"

/-- The amended reasoning-class predicate: capability record declares
reasoning support, or the lowercased identifier contains one of the
substrings "o1"/"o3"/"o4" and does not contain the substring "chat". -/
def reasoningClassAmended (info : ModelInfo) (deploymentLower : String) : Bool :=
  info.supportsReasoning ||
    ((strContains deploymentLower "o1" || strContains deploymentLower "o3" ||
        strContains deploymentLower "o4") &&
      !strContains deploymentLower "chat")

/-! ### Concrete fixtures for witnesses and counterexamples -/

/-- A valid API-key configuration with the non-reasoning deployment
`gpt-4o`, mirroring the repository's test fixtures. -/
def demoOpts : FoundryOptions :=
  { endpoint := some "https://example.com"
    apiKey := some "test-key"
    deploymentId := some "gpt-4o" }

/-- Fresh handler state over `demoOpts`. -/
def demoSt : HandlerState := { options := demoOpts }

/-- A capability record with reasoning support declared off. -/
def nonReasoningInfo : ModelInfo :=
  { maxTokens := 8192, contextWindow := 128000
    supportsImages := true, supportsPromptCache := false
    supportsReasoning := false, inputPrice := 0, outputPrice := 0 }

/-- C4's counterexample configuration: deployment `pro1` (contains the
substring "o1" but does not start with o1/o3/o4) with a capability record
declaring no reasoning support. -/
def pro1Opts : FoundryOptions :=
  { endpoint := some "https://example.com"
    apiKey := some "test-key"
    deploymentId := some "pro1"
    modelInfo := some nonReasoningInfo }

/-- Fresh handler state over `pro1Opts`. -/
def pro1St : HandlerState := { options := pro1Opts }

/-- C5's counterexample configuration: deployment `demo1` (contains the
substring "o1", no "gpt-5"/"gpt5") with a capability record declaring no
reasoning support. -/
def demo1Opts : FoundryOptions :=
  { endpoint := some "https://example.com"
    apiKey := some "test-key"
    deploymentId := some "demo1"
    modelInfo := some nonReasoningInfo }

/-- Fresh handler state over `demo1Opts`. -/
def demo1St : HandlerState := { options := demo1Opts }

/-- A chunk carrying a single tool-call fragment for index 0 (C1's
stream-end scenario). -/
def toolFragmentChunk : Chunk :=
  { choices :=
      [{ delta := some
          { tool_calls := some
              [{ index := 0, id := some "call-1", name := some "do-thing",
                 args := some "arg-payload" }] } }] }

/-- A chunk carrying only a usage block. -/
def usageChunk1 : Chunk :=
  { usage := some { prompt_tokens := some 10, completion_tokens := some 20,
                    prompt_tokens_details := some { cached_tokens := some 3 } } }

/-- A second usage-bearing chunk with different counts. -/
def usageChunk2 : Chunk :=
  { usage := some { prompt_tokens := some 30, completion_tokens := some 40 } }

/-- The unrecognized-shape chunk of C2: no choices, no delta, no usage. -/
def emptyChunk : Chunk := {}

/-- A well-formed text chunk. -/
def textChunk (s : String) : Chunk :=
  { choices := [{ delta := some { content := some s } }] }

/-- `true` exactly on usage events. -/
def isUsageEv : StreamEvent → Bool
  | .usage _ _ _ _ => true
  | _ => false

/-- `true` on the `ok` branch of an `Except`. -/
def exceptOk {ε α : Type} : Except ε α → Bool
  | .ok _ => true
  | .error _ => false

/-- The client `ensureClient` constructs from `demoOpts`. -/
def demoClient : Client :=
  { endpoint := "https://example.com"
    auth := .key "test-key"
    apiVersion := azureOpenAiDefaultApiVersion }

/-- C9's counterexample configuration: endpoint present and identity auth
selected, but an Azure Stack environment with no custom scope and an
endpoint host matching no known cloud suffix. -/
def stackOpts : FoundryOptions :=
  { endpoint := some "https://foo.stack.local"
    useIdentity := true
    cloudEnvironment := some .stack }

/-- C10's configuration: valid endpoint and API key, no deployment id. -/
def noDepOpts : FoundryOptions :=
  { endpoint := some "https://example.com"
    apiKey := some "test-key" }

/-- A reasoning deployment configuration with an explicit effort hint
(mirrors the repository's reasoning-effort test fixture). -/
def demoO1Opts : FoundryOptions :=
  { endpoint := some "https://example.com"
    apiKey := some "test-key"
    deploymentId := some "o1"
    reasoningEffort := some "low" }

/-- C6's raw error: status 404 with a `DeploymentNotFound` message. -/
def c6Err : RawError := { status := some 404, message := "DeploymentNotFound" }

/-- C6's options: a configured deployment identifier, API-key auth. -/
def c6Opts : FoundryOptions := { deploymentId := some "my-deploy" }


/-! ### Helper lemmas -/

theorem charsStarts_self_append (p r : List Char) : charsStarts p (p ++ r) = true := by
  induction p with
  | nil => rfl
  | cons a t ih => simp [charsStarts, ih]

theorem charsContains_nil_needle (h : List Char) : charsContains [] h = true := by
  cases h with
  | nil => rfl
  | cons a t => simp [charsContains, charsStarts]

theorem charsContains_self_append (p pre post : List Char) :
    charsContains p (pre ++ (p ++ post)) = true := by
  induction pre with
  | nil =>
    cases p with
    | nil => simpa using charsContains_nil_needle post
    | cons a t =>
      simp only [List.nil_append, charsContains, List.append_eq]
      rw [show a :: (t ++ post) = (a :: t) ++ post from rfl, charsStarts_self_append]
      rfl
  | cons b bs ih =>
    simp only [List.cons_append, charsContains, List.append_eq]
    rw [ih]
    exact Bool.or_true _

theorem str_data_append (a b : String) : (a ++ b).data = a.data ++ b.data := by
  cases a
  cases b
  rfl

theorem strContains_of_parts (s b : String) (pre post : List Char)
    (h : s.data = pre ++ (b.data ++ post)) : strContains s b = true := by
  unfold strContains
  rw [h]
  exact charsContains_self_append b.data pre post

theorem find?_first_match {α : Type} (p : α → Bool) (x : α) (l₂ : List α) :
    ∀ l₁ : List α, (∀ e ∈ l₁, p e = false) → p x = true →
      (l₁ ++ x :: l₂).find? p = some x := by
  intro l₁
  induction l₁ with
  | nil =>
    intro _ hx
    simp [List.find?_cons, hx]
  | cons a t ih =>
    intro h hx
    have ha : p a = false := h a (List.mem_cons_self a t)
    simp only [List.cons_append, List.find?_cons, ha]
    exact ih (fun e he => h e (List.mem_cons_of_mem a he)) hx

theorem find?_key_of_nodup {α β : Type} [BEq α] [LawfulBEq α]
    (l : List (α × β)) (k : α) (c : β)
    (hnd : (l.map Prod.fst).Nodup) (hm : (k, c) ∈ l) :
    l.find? (fun e => e.1 == k) = some (k, c) := by
  induction l with
  | nil => cases hm
  | cons a t ih =>
    rw [List.map_cons, List.nodup_cons] at hnd
    rcases List.mem_cons.mp hm with h1 | h2
    · subst h1
      simp [List.find?_cons]
    · have hne : (a.1 == k) = false := by
        rcases h : a.1 == k with _ | _
        · rfl
        · exact absurd (List.mem_map.mpr ⟨(k, c), h2, by simpa using (eq_of_beq h).symm⟩) hnd.1
      simp only [List.find?_cons, hne]
      exact ih hnd.2 h2

theorem ensureClient_preserves_options (st : HandlerState) (c : Client) (st' : HandlerState)
    (h : ensureClient st = .ok (c, st')) : st'.options = st.options := by
  unfold ensureClient at h
  cases hc : st.client with
  | some c0 =>
    rw [hc] at h
    cases h
    rfl
  | none =>
    rw [hc] at h
    cases hb : buildClient st.options with
    | ok c1 =>
      rw [hb] at h
      cases h
      rfl
    | error m =>
      rw [hb] at h
      cases h

theorem createMessage_ok_events (st : HandlerState) (sys : String) (msgs : List SpecMessage)
    (tools : Option (List ToolSchema)) (chunks : List Chunk)
    (req : ProviderRequest) (evs : List StreamEvent)
    (h : createMessage st sys msgs tools chunks = .ok (req, evs)) : evs = runStream chunks := by
  unfold createMessage at h
  cases he : ensureClient st with
  | error m =>
    rw [he] at h
    cases h
  | ok p =>
    rw [he] at h
    by_cases hd : optTruthy p.2.options.deploymentId
    · simp only [hd] at h
      cases h
      rfl
    · simp only [Bool.not_eq_true] at hd
      simp only [hd] at h
      cases h

theorem applyFragment_no_usage (st : ToolCallProcState) (f : ToolCallFragment) :
    ((applyFragment st f).1.all fun ev => !isUsageEv ev) = true := by
  unfold applyFragment
  split
  · rfl
  · split
    · rfl
    · split
      · rfl
      · rfl

theorem toolFold_no_usage (frags : List ToolCallFragment) :
    ∀ acc : List StreamEvent × ToolCallProcState,
      (acc.1.all fun ev => !isUsageEv ev) = true →
      (((frags.foldl
            (fun acc f =>
              let r := applyFragment acc.2 f
              (acc.1 ++ r.1, r.2))
            acc).1).all fun ev => !isUsageEv ev) = true := by
  induction frags with
  | nil => intro acc h; exact h
  | cons f fs ih =>
    intro acc h
    apply ih
    rw [List.all_append, h, applyFragment_no_usage]
    rfl

theorem processToolCallDeltas_no_usage (st : ToolCallProcState) (frags : List ToolCallFragment) :
    (((processToolCallDeltas st frags).1).all fun ev => !isUsageEv ev) = true :=
  toolFold_no_usage frags ([], st) rfl

theorem filter_usage_nil_of_all (l : List StreamEvent)
    (h : (l.all fun ev => !isUsageEv ev) = true) : l.filter isUsageEv = [] := by
  induction l with
  | nil => rfl
  | cons a t ih =>
    rw [List.all_cons] at h
    have h1 : isUsageEv a = false := by
      rcases ha : isUsageEv a with _ | _
      · rfl
      · rw [ha] at h; cases h
    have h2 := ih (by
      rcases hb : t.all fun ev => !isUsageEv ev with _ | _
      · rw [h1, hb] at h; cases h
      · rfl)
    simp [List.filter_cons, h1, h2]

theorem chunkTextEvents_filter (d : Option ChunkDelta) :
    (chunkTextEvents d).filter isUsageEv = [] := by
  cases d with
  | none => rfl
  | some dd =>
    by_cases h : optTruthy dd.content = true
    · simp [chunkTextEvents, h, List.filter, isUsageEv]
    · simp only [Bool.not_eq_true] at h
      simp [chunkTextEvents, h]

theorem chunkReasoningEvents_filter (d : Option ChunkDelta) :
    (chunkReasoningEvents d).filter isUsageEv = [] := by
  cases d with
  | none => rfl
  | some dd =>
    by_cases h : optTruthy dd.reasoning_content = true
    · simp [chunkReasoningEvents, h, List.filter, isUsageEv]
    · simp only [Bool.not_eq_true] at h
      simp [chunkReasoningEvents, h]

theorem chunkUsageEvents_filter (c : Chunk) :
    (chunkUsageEvents c).filter isUsageEv = chunkUsageEvents c := by
  cases hu : c.usage with
  | none => simp [chunkUsageEvents, hu]
  | some u => simp [chunkUsageEvents, hu, List.filter, usageEventOf, isUsageEv]

theorem processChunk_filter (tp : ToolCallProcState) (c : Chunk) :
    ((processChunk tp c).1).filter isUsageEv = chunkUsageEvents c := by
  unfold processChunk
  simp only [List.filter_append]
  rw [chunkTextEvents_filter, chunkReasoningEvents_filter, chunkUsageEvents_filter]
  have htool :
      ((match (chunkDelta c).bind ChunkDelta.tool_calls with
        | some frags => processToolCallDeltas tp frags
        | none => ([], tp)).1).filter isUsageEv = [] := by
    cases ht : (chunkDelta c).bind ChunkDelta.tool_calls with
    | none => rfl
    | some frags =>
      exact filter_usage_nil_of_all _ (processToolCallDeltas_no_usage tp frags)
  rw [htool]
  rfl

theorem runStreamAux_filter (chunks : List Chunk) :
    ∀ tp : ToolCallProcState,
      (((runStreamAux tp chunks).1).filter isUsageEv) =
        (chunks.filterMap Chunk.usage).map usageEventOf := by
  induction chunks with
  | nil => intro tp; rfl
  | cons c cs ih =>
    intro tp
    simp only [runStreamAux, List.filter_append, processChunk_filter, ih, List.filterMap_cons]
    cases hu : c.usage with
    | none => simp [chunkUsageEvents, hu]
    | some u => simp [chunkUsageEvents, hu]

theorem noTemp_eq_amended (info : ModelInfo) (dl : String) :
    noTemperatureSupport info dl =
      (reasoningClassAmended info dl || fixedTempFamilyClaimed dl) := by
  have hre : reasoningClassAmended info dl = isReasoningModel info dl := rfl
  unfold noTemperatureSupport fixedTempFamilyClaimed
  rw [hre]
  generalize strContains dl "gpt-5" = a
  generalize strContains dl "gpt5" = b
  generalize isReasoningModel info dl = r
  cases a <;> cases b <;> cases r <;> rfl

/-! ### Claim theorems -/

/-- C1 (code evidence): after a provider stream that ends while a tool-call
fragment sequence is still open, `createMessage` emits no completed
tool-call event at all — the event sequence is empty — although the
reassembler's accumulator for index 0 is open and the spec-mandated
stream-end flush (`finalizeToolCalls`, which the source never invokes)
would have emitted the completed tool call.  The accumulated tool call is
silently dropped, contradicting the claim. -/
theorem C1_open_tool_call_dropped_at_stream_end :
    (createMessage demoSt "sys" [] none [toolFragmentChunk]).toOption.map Prod.snd =
      some [] ∧
    (runStreamAux {} [toolFragmentChunk]).2.current =
      some (0, { id := "call-1", name := "do-thing", argumentBuffer := "arg-payload" }) ∧
    finalizeToolCalls (runStreamAux {} [toolFragmentChunk]).2 =
      [.toolCallComplete "call-1" "do-thing" "arg-payload"] :=
  ⟨by decide, by decide, by decide⟩

/-- C2: a chunk of unrecognized shape (no choices, no delta, no usage) is
skipped: `createMessage` on a stream beginning with such a chunk is
exactly `createMessage` on the remaining chunks — every event of the
well-formed chunks is delivered in order, nothing is emitted for the
unrecognized chunk, and no error arises from it. -/
theorem C2_unrecognized_chunk_skipped (st : HandlerState) (sys : String)
    (msgs : List SpecMessage) (tools : Option (List ToolSchema)) (rest : List Chunk) :
    createMessage st sys msgs tools (emptyChunk :: rest) =
      createMessage st sys msgs tools rest := by
  have hrun : runStream (emptyChunk :: rest) = runStream rest := rfl
  cases he : ensureClient st with
  | error m => simp [createMessage, he]
  | ok p => simp [createMessage, he, hrun]

/-- C3 (counterexample): a provider stream in which two chunks carry a
usage block makes `createMessage` emit two usage events, one per
usage-bearing chunk — not at most one per request as claimed. -/
theorem C3_counterexample_two_usage_events :
    (createMessage demoSt "sys" [] none [usageChunk1, usageChunk2]).toOption.map Prod.snd =
      some [.usage 10 20 3 0, .usage 30 40 0 0] := by decide

/-- C3 (amended): the usage events of a request are exactly the usage
blocks of the provider chunks, in arrival order, one event per
usage-bearing chunk; hence when at most one chunk carries usage (the
provider's include_usage contract delivers it on the final chunk) at most
one usage event is emitted and it reflects that final accounting. -/
theorem C3_amended_one_usage_event_per_usage_chunk (st : HandlerState) (sys : String)
    (msgs : List SpecMessage) (tools : Option (List ToolSchema)) (chunks : List Chunk)
    (req : ProviderRequest) (evs : List StreamEvent)
    (h : createMessage st sys msgs tools chunks = .ok (req, evs)) :
    evs.filter isUsageEv = (chunks.filterMap Chunk.usage).map usageEventOf := by
  rw [createMessage_ok_events st sys msgs tools chunks req evs h]
  exact runStreamAux_filter chunks {}

/-- C3 (witness): the amended theorem applied to a concrete stream whose
final chunk alone carries usage. -/
theorem C3_amended_witness :
    (runStream [textChunk "hi", usageChunk1]).filter isUsageEv =
      ([textChunk "hi", usageChunk1].filterMap Chunk.usage).map usageEventOf :=
  C3_amended_one_usage_event_per_usage_chunk demoSt "sys" [] none
    [textChunk "hi", usageChunk1]
    (shapeRequest demoOpts "sys" [] none "gpt-4o")
    (runStream [textChunk "hi", usageChunk1]) rfl

/-- C4 (counterexample): deployment `pro1` with a capability record
declaring no reasoning support is not reasoning-class under the claim's
classifier (no o1/o3/o4 prefix match), yet the shaped request places the
system prompt under the developer role and carries
`reasoning_effort = "medium"` — the source tests the substrings
`o1`/`o3`/`o4`, not prefixes. -/
theorem C4_counterexample_substring_not_prefix :
    reasoningClassClaimed nonReasoningInfo (lowerStr "pro1") = false ∧
    (createMessage pro1St "sys" [] none []).toOption.map
        (fun r => (r.1.messages.head?, r.1.reasoningEffortField)) =
      some (some { role := "developer", content := "sys" }, some "medium") :=
  ⟨by decide, by decide⟩

/-- C4 (amended): with reasoning-class read as the source computes it —
capability record declares reasoning support, or the lowercased identifier
contains one of the substrings o1/o3/o4 and does not contain the substring
chat — the shaped request of a reasoning-class model places the system
prompt under the developer role and carries a reasoning_effort equal to
the caller's hint (or "medium" when absent), and any other model gets the
system role and no reasoning_effort field. -/
theorem C4_amended_reasoning_request_shape (opts : FoundryOptions) (sys : String)
    (msgs : List SpecMessage) (tools : Option (List ToolSchema)) (d : String)
    (hhint : opts.reasoningEffort ≠ some "") :
    (reasoningClassAmended (opts.modelInfo.getD (getModelCapabilities d)) (lowerStr d) = true →
      (shapeRequest opts sys msgs tools d).messages.head? =
          some { role := "developer", content := sys } ∧
        (shapeRequest opts sys msgs tools d).reasoningEffortField =
          some (opts.reasoningEffort.getD "medium")) ∧
    (reasoningClassAmended (opts.modelInfo.getD (getModelCapabilities d)) (lowerStr d) = false →
      (shapeRequest opts sys msgs tools d).messages.head? =
          some { role := "system", content := sys } ∧
        (shapeRequest opts sys msgs tools d).reasoningEffortField = none) := by
  have hre :
      reasoningClassAmended (opts.modelInfo.getD (getModelCapabilities d)) (lowerStr d) =
        isReasoningModel (opts.modelInfo.getD (getModelCapabilities d)) (lowerStr d) := rfl
  constructor
  · intro h
    rw [hre] at h
    refine ⟨by simp [shapeRequest, h], ?_⟩
    simp only [shapeRequest, h, if_true]
    cases he : opts.reasoningEffort with
    | none => simp [effortVal]
    | some e =>
      have hne : (e == "") = false := by
        rw [he] at hhint
        exact beq_eq_false_iff_ne.mpr (fun hcon => hhint (by rw [hcon]))
      simp [effortVal, hne]
  · intro h
    rw [hre] at h
    exact ⟨by simp [shapeRequest, h], by simp [shapeRequest, h]⟩

/-- C4 (witness): the amended theorem applied to the reasoning deployment
`o1` with effort hint "low". -/
theorem C4_amended_witness :
    (shapeRequest demoO1Opts "sys" [] none "o1").messages.head? =
        some { role := "developer", content := "sys" } ∧
      (shapeRequest demoO1Opts "sys" [] none "o1").reasoningEffortField = some "low" :=
  (C4_amended_reasoning_request_shape demoO1Opts "sys" [] none "o1" (by decide)).1 (by decide)

/-- C5 (counterexample): deployment `demo1` is neither reasoning-class
under the claim's classifier nor in the fixed-temperature family, yet the
shaped request omits the temperature field — because the source's
reasoning detection fires on the substring "o1" inside "demo1". -/
theorem C5_counterexample_temperature_suppressed :
    reasoningClassClaimed nonReasoningInfo (lowerStr "demo1") = false ∧
    fixedTempFamilyClaimed (lowerStr "demo1") = false ∧
    (createMessage demo1St "sys" [] none []).toOption.map (fun r => r.1.temperature) =
      some none :=
  ⟨by decide, by decide, by decide⟩

/-- C5 (amended): the shaped request omits the temperature field exactly
when the model is reasoning-class as the source detects it (capability
record, or substrings o1/o3/o4 without the substring chat) or its
lowercased identifier contains "gpt-5"/"gpt5"; every other model gets the
fixed default temperature 0.7. -/
theorem C5_amended_temperature_omission (opts : FoundryOptions) (sys : String)
    (msgs : List SpecMessage) (tools : Option (List ToolSchema)) (d : String) :
    (shapeRequest opts sys msgs tools d).temperature =
      (if reasoningClassAmended (opts.modelInfo.getD (getModelCapabilities d)) (lowerStr d) ||
          fixedTempFamilyClaimed (lowerStr d)
       then none else some (7 / 10 : ℚ)) := by
  simp only [shapeRequest, noTemp_eq_amended]

/-- C6: the error classifier is the claimed ordered rule table.  Each rule
inspects the status code first and then message substrings; an earlier
rule firing preempts all later ones; the 401 remediation differs by the
active auth mode; the deployment-hinted 404 remediation mentions the
configured deployment identifier; an unmatched error preserves the raw
message. -/
theorem C6_error_classifier_rule_table (opts : FoundryOptions) (e : RawError) :
    (errTrigger401 e = true →
      getDetailedErrorMessage opts e =
          (if opts.useIdentity then authIdentityMsg else authKeyMsg) ∧
        authIdentityMsg ≠ authKeyMsg) ∧
    (errTrigger401 e = false → errTrigger403 e = true →
      getDetailedErrorMessage opts e = forbiddenMsg) ∧
    (errTrigger401 e = false → errTrigger403 e = false → errTrigger404 e = true →
      errTriggerDeployment e = true →
      getDetailedErrorMessage opts e = deploymentNotFoundMsg opts ∧
        strContains (deploymentNotFoundMsg opts) (optInterp opts.deploymentId) = true) ∧
    (errTrigger401 e = false → errTrigger403 e = false → errTrigger404 e = true →
      errTriggerDeployment e = false →
      getDetailedErrorMessage opts e = notFoundMsg) ∧
    (errTrigger401 e = false → errTrigger403 e = false → errTrigger404 e = false →
      errTrigger429 e = true →
      getDetailedErrorMessage opts e = rateLimitMsg) ∧
    (errTrigger401 e = false → errTrigger403 e = false → errTrigger404 e = false →
      errTrigger429 e = false → errTriggerNetwork e = true →
      getDetailedErrorMessage opts e = networkMsg) ∧
    (errTrigger401 e = false → errTrigger403 e = false → errTrigger404 e = false →
      errTrigger429 e = false → errTriggerNetwork e = false →
      getDetailedErrorMessage opts e = "Microsoft Foundry error: " ++ e.message ∧
        strContains ("Microsoft Foundry error: " ++ e.message) e.message = true) := by
  refine ⟨?_, ?_, ?_, ?_, ?_, ?_, ?_⟩
  · intro h1
    exact ⟨by simp [getDetailedErrorMessage, h1], by decide⟩
  · intro h1 h2
    simp [getDetailedErrorMessage, h1, h2]
  · intro h1 h2 h3 h4
    refine ⟨by simp [getDetailedErrorMessage, h1, h2, h3, h4], ?_⟩
    apply strContains_of_parts _ _ "Deployment '".data
      (("' not found. " ++
        "Verify that:\n" ++
        "1. The deployment exists in your Azure AI Foundry project\n" ++
        "2. The deployment name is spelled correctly\n" ++
        "3. The model has been deployed (not just available in the catalog)").data)
    simp only [deploymentNotFoundMsg, str_data_append, List.append_assoc]
  · intro h1 h2 h3 h4
    simp [getDetailedErrorMessage, h1, h2, h3, h4]
  · intro h1 h2 h3 h4
    simp [getDetailedErrorMessage, h1, h2, h3, h4]
  · intro h1 h2 h3 h4 h5
    simp [getDetailedErrorMessage, h1, h2, h3, h4, h5]
  · intro h1 h2 h3 h4 h5
    refine ⟨by simp [getDetailedErrorMessage, h1, h2, h3, h4, h5], ?_⟩
    apply strContains_of_parts _ _ "Microsoft Foundry error: ".data []
    rw [str_data_append, List.append_nil]

/-- C6 (witness): a 404 error whose message contains `DeploymentNotFound`
classifies to the deployment-specific remediation mentioning the
configured deployment identifier. -/
theorem C6_witness :
    getDetailedErrorMessage c6Opts c6Err = deploymentNotFoundMsg c6Opts ∧
      strContains (deploymentNotFoundMsg c6Opts) "my-deploy" = true :=
  (C6_error_classifier_rule_table c6Opts c6Err).2.2.1 (by decide) (by decide) (by decide)
    (by decide)

/-- C7 (counterexample): `o1-mini-2024` is not an exact table key, is
prefix-matched by both `o1` and the longer `o1-mini`, yet resolves to the
`o1` record (the first match in insertion order) and not to the record of
the longest matching prefix `o1-mini`. -/
theorem C7_counterexample_first_not_longest :
    strStarts "o1-mini-2024" "o1-mini" = true ∧
    strStarts "o1-mini-2024" "o1" = true ∧
    FOUNDRY_MODEL_CAPABILITIES.find? (fun e => e.1 == "o1-mini-2024") = none ∧
    ("o1-mini", o1MiniCaps) ∈ FOUNDRY_MODEL_CAPABILITIES ∧
    getModelCapabilities "o1-mini-2024" = mergeOver DEFAULT_MODEL_INFO o1Caps ∧
    getModelCapabilities "o1-mini-2024" ≠ mergeOver DEFAULT_MODEL_INFO o1MiniCaps :=
  ⟨by decide, by decide, by decide, by decide, by decide, by decide⟩

/-- C7 (amended): for a model name that is not an exact key, capability
resolution selects the record of the first prefix-matching entry in the
table's insertion order — a name extending `o1-mini` therefore resolves to
the `o1` record, which precedes `o1-mini` in the table. -/
theorem C7_amended_first_prefix_match_wins (name : String)
    (l₁ l₂ : List (String × ModelInfoPatch)) (k : String) (c : ModelInfoPatch)
    (htab : FOUNDRY_MODEL_CAPABILITIES = l₁ ++ (k, c) :: l₂)
    (hexact : FOUNDRY_MODEL_CAPABILITIES.find? (fun e => e.1 == name) = none)
    (hskip : ∀ e ∈ l₁, strStarts name e.1 = false)
    (hk : strStarts name k = true) :
    getModelCapabilities name = mergeOver DEFAULT_MODEL_INFO c := by
  have hfind :
      FOUNDRY_MODEL_CAPABILITIES.find? (fun e => strStarts name e.1) = some (k, c) := by
    rw [htab]
    exact find?_first_match (fun e => strStarts name e.1) (k, c) l₂ l₁ hskip hk
  simp [getModelCapabilities, hexact, hfind]

/-- C7 (witness): the amended theorem applied at `o1-mini-2024`, whose
first prefix-matching table entry is `o1` at position 8. -/
theorem C7_amended_witness :
    getModelCapabilities "o1-mini-2024" = mergeOver DEFAULT_MODEL_INFO o1Caps :=
  C7_amended_first_prefix_match_wins "o1-mini-2024"
    (FOUNDRY_MODEL_CAPABILITIES.take 8) (FOUNDRY_MODEL_CAPABILITIES.drop 9) "o1" o1Caps
    (by decide) (by decide) (by decide) (by decide)

/-- C8: capability resolution is total and layered as claimed — an exact
table key resolves to its record merged over the default record, a
non-exact name with some prefix-matching key resolves to a prefix-matched
record merged over the default, and a wholly unknown name resolves to the
default record; the function returns a record for every input string. -/
theorem C8_capability_resolution_total :
    (∀ k c, (k, c) ∈ FOUNDRY_MODEL_CAPABILITIES →
      getModelCapabilities k = mergeOver DEFAULT_MODEL_INFO c) ∧
    (∀ name e₀, FOUNDRY_MODEL_CAPABILITIES.find? (fun e => e.1 == name) = none →
      e₀ ∈ FOUNDRY_MODEL_CAPABILITIES → strStarts name e₀.1 = true →
      ∃ k c, (k, c) ∈ FOUNDRY_MODEL_CAPABILITIES ∧ strStarts name k = true ∧
        getModelCapabilities name = mergeOver DEFAULT_MODEL_INFO c) ∧
    (∀ name, FOUNDRY_MODEL_CAPABILITIES.find? (fun e => e.1 == name) = none →
      (∀ e₀ ∈ FOUNDRY_MODEL_CAPABILITIES, strStarts name e₀.1 = false) →
      getModelCapabilities name = DEFAULT_MODEL_INFO) := by
  refine ⟨?_, ?_, ?_⟩
  · intro k c hm
    have h := find?_key_of_nodup FOUNDRY_MODEL_CAPABILITIES k c (by decide) hm
    simp [getModelCapabilities, h]
  · intro name e₀ hnone hmem hpref
    cases hfind : FOUNDRY_MODEL_CAPABILITIES.find? (fun e => strStarts name e.1) with
    | none =>
      exact absurd hpref (by simpa using List.find?_eq_none.mp hfind e₀ hmem)
    | some e =>
      refine ⟨e.1, e.2, List.mem_of_find?_eq_some hfind, ?_,
        by simp [getModelCapabilities, hnone, hfind]⟩
      have hp := List.find?_some hfind
      simpa using hp
  · intro name hnone hall
    have hfind : FOUNDRY_MODEL_CAPABILITIES.find? (fun e => strStarts name e.1) = none :=
      List.find?_eq_none.mpr (by simpa using hall)
    simp [getModelCapabilities, hnone, hfind]

/-- C8 (witness): the default-record branch applied to a wholly unknown
name. -/
theorem C8_witness : getModelCapabilities "wholly-unknown-deployment" = DEFAULT_MODEL_INFO :=
  C8_capability_resolution_total.2.2 "wholly-unknown-deployment" (by decide) (by decide)

/-- C9 (counterexample): a configuration with a present endpoint and
identity auth selected — so neither of the claim's failure conditions
holds — still makes `ensureClient` fail, because audience-scope resolution
fails for the Stack environment with no custom scope and an endpoint host
matching no known cloud suffix. -/
theorem C9_counterexample_stack_scope_failure :
    exceptOk (ensureClient { options := stackOpts }) = false ∧
    optTruthy stackOpts.endpoint = true ∧
    stackOpts.useIdentity = true :=
  ⟨by decide, by decide, by decide⟩

/-- C9 (amended): on a fresh instance `ensureClient` fails exactly when
the endpoint is absent, when neither an API key nor identity auth is
selected, or when identity auth is selected and audience-scope resolution
fails; on success the constructed client is cached and every subsequent
call returns that same cached client and state, so exactly one client is
provisioned per instance while configuration is unchanged. -/
theorem C9_amended_ensure_client (opts : FoundryOptions) :
    (exceptOk (ensureClient { options := opts }) = false ↔
      (optTruthy opts.endpoint = false ∨
        (optTruthy opts.apiKey = false ∧ opts.useIdentity = false) ∨
        (opts.useIdentity = true ∧ exceptOk (getAudienceScope opts) = false))) ∧
    (∀ c st', ensureClient { options := opts } = .ok (c, st') →
      st'.client = some c ∧ ensureClient st' = .ok (c, st')) := by
  constructor
  · show exceptOk (match buildClient opts with
      | .ok c => .ok (c, ({ options := opts, client := some c } : HandlerState))
      | .error m => (.error m : Except String (Client × HandlerState))) = false ↔ _
    cases he : optTruthy opts.endpoint with
    | false => simp [buildClient, he, exceptOk]
    | true =>
      cases hk : optTruthy opts.apiKey with
      | false =>
        cases hi : opts.useIdentity with
        | false => simp [buildClient, he, hk, hi, exceptOk]
        | true =>
          cases hs : getAudienceScope opts with
          | ok scope => simp [buildClient, he, hk, hi, hs, exceptOk]
          | error m => simp [buildClient, he, hk, hi, hs, exceptOk]
      | true =>
        cases hi : opts.useIdentity with
        | false => simp [buildClient, he, hk, hi, exceptOk]
        | true =>
          cases hs : getAudienceScope opts with
          | ok scope => simp [buildClient, he, hk, hi, hs, exceptOk]
          | error m => simp [buildClient, he, hk, hi, hs, exceptOk]
  · intro c st' h
    rw [show ensureClient { options := opts } =
        (match buildClient opts with
          | .ok c0 => .ok (c0, ({ options := opts, client := some c0 } : HandlerState))
          | .error m => (.error m : Except String (Client × HandlerState))) from rfl] at h
    cases hb : buildClient opts with
    | ok c0 =>
      rw [hb] at h
      cases h
      exact ⟨rfl, rfl⟩
    | error m =>
      rw [hb] at h
      cases h

/-- C9 (witness): the caching conjunct applied to a valid API-key
configuration — the second call returns the cached client unchanged. -/
theorem C9_amended_witness :
    ensureClient { options := demoOpts, client := some demoClient } =
      .ok (demoClient, { options := demoOpts, client := some demoClient }) :=
  ((C9_amended_ensure_client demoOpts).2 demoClient
    { options := demoOpts, client := some demoClient } rfl).2

/-- C10: `createMessage` on a handler whose options carry no deployment
identifier but whose client configuration is otherwise valid fails with
the select-a-deployment error; the embedding returns the shaped provider
request and the stream events only on success, so the failure carries no
event and no provider request — mirroring the source, where the generator
throws before any yield and before `client.chat.completions.create`. -/
theorem C10_missing_deployment_fails_early (st : HandlerState) (sys : String)
    (msgs : List SpecMessage) (tools : Option (List ToolSchema)) (chunks : List Chunk)
    (hd : st.options.deploymentId = none)
    (hok : exceptOk (ensureClient st) = true) :
    createMessage st sys msgs tools chunks = .error noDeploymentMsg := by
  unfold createMessage
  cases he : ensureClient st with
  | error m =>
    rw [he] at hok
    cases hok
  | ok p =>
    have hopts : p.2.options = st.options :=
      ensureClient_preserves_options st p.1 p.2 (by rw [he])
    simp [hopts, hd, optTruthy]

/-- C10 (witness): the theorem applied to a valid endpoint/key
configuration with no deployment selected. -/
theorem C10_witness :
    createMessage { options := noDepOpts } "sys" [] none [] = .error noDeploymentMsg :=
  C10_missing_deployment_fails_early { options := noDepOpts } "sys" [] none [] rfl (by decide)

end Foundry
